import Mathlib

/-!
Shallow embedding of `examples/process/command_points.py`: the control-point
execution protocol (Control Command hierarchy) for distributed, process-forking
probabilistic-program traces.

Modelling choices, all read off the source:
* A process execution is modelled as the list of Coordination-Store / RNG
  events it performs, plus a terminal `Outcome`.  `fork` is modelled by a
  `Run` structure holding the calling process's own events and a list of
  spawned child `Proc`s (events after the fork belong to the child).
* `wait_on_lock` blocks on the external store; its behaviour is parameterised
  by a `WaitResult`: the waiter may still be parked, may be woken with a
  delivered payload, or `add_lock_and_wait` may fail.  A parked process ends
  with outcome `blocked`; a woken process that receives a Control Command
  ends with `dispatched` (the tail call into that command's
  `execute_control_site`, recorded as a marker rather than interpreted).
* `get_uuid` is a fresh-token supply, modelled by a counter.
* The numpy / torch global RNGs are explicit `Ctx` state; `seed(None)` takes
  an `entropy` input (OS nondeterminism).  The actual numpy `randint` and the
  torch-driven sampling primitive `_pyro_sample`, as well as
  `batch_log_pdf`, live in external libraries and are taken as function
  parameters (`npRandint`, `torchDraw`, `batch_log_pdf`).
* Python `assert` failures terminate the process: outcome `assertFailed`
  carrying the assertion's message string.
-/

/-- Site names (Python strings). -/
abbrev Site := String

/-- Trace ids: opaque unique tokens handed out by `get_uuid`. -/
abbrev TId := Nat

/-- A pyro site message, as inspected by the commands: its type tag,
its site name, and its current value. -/
structure Msg where
  type_ : String
  name : String
  value : Int
deriving DecidableEq

/-- A trace dict: site name to sampled value. -/
abbrev TraceDict := List (String × Int)

/-- Write a value at a site of a trace dict (overwrite, else append). -/
def TraceDict.setSite : TraceDict → String → Int → TraceDict
  | [], k, v => [(k, v)]
  | (k', v') :: rest, k, v =>
      if k' = k then (k, v) :: rest else (k', v') :: TraceDict.setSite rest k v

/-- The trace poutine object: carries its `trace_uuid` and the trace dict. -/
structure TracePoutine where
  trace_uuid : TId
  trace : TraceDict
deriving DecidableEq

/-- The Control Command variants of command_points.py, as data. -/
inductive Cmd
  | forkContinue
  | clone (clone_count : Nat)
  | resampleCloneContinue (sd : Option Nat) (clone_count : Nat)
  | resampleForkContinue (sd : Option Nat) (uuid_on_sample : Bool)
  | logPdf
  | kill
deriving DecidableEq

/-- A payload delivered to a parked waiter: either a Control Command, or an
arbitrary other Python value (which fails the `issubclass` check). -/
inductive Payload
  | cmd (c : Cmd)
  | notCmd (tag : String)
deriving DecidableEq

/-- Observable events of a process: Coordination-Store operations and
RNG / sampling operations, in program order. -/
inductive Event
  | openConn
  | killConn
  | setTrace (tid : TId) (site : Site) (blob : TraceDict)
  | addPair (parent : TId) (child : TId) (site : Site)
  | setMsg (tid : TId) (site : Site) (log_pdf : Int)
  | addLockAndWait (tid : TId) (site : Site)
  | npSeed (sd : Option Nat)
  | torchManualSeed (s : Nat)
  | pyroSample (site : String) (v : Int)
deriving DecidableEq

/-- Is the event an `add_lock_and_wait` call? -/
def Event.isWait : Event → Bool
  | .addLockAndWait _ _ => true
  | _ => false

/-- Is the event a pair-record insertion? -/
def Event.isAddPair : Event → Bool
  | .addPair _ _ _ => true
  | _ => false

/-- Is the event a write to the Coordination Store? -/
def Event.isStoreWrite : Event → Bool
  | .setTrace _ _ _ => true
  | .addPair _ _ _ => true
  | .setMsg _ _ _ => true
  | _ => false

/-- Is the event a `_pyro_sample` resampling step? -/
def Event.isSample : Event → Bool
  | .pyroSample _ _ => true
  | _ => false

/-- The (trace-id, site) key of a trace persist, if the event is one. -/
def Event.setTraceKey : Event → Option (TId × Site)
  | .setTrace t s _ => some (t, s)
  | _ => none

/-- The (trace-id, site) key of a lock wait, if the event is one. -/
def Event.waitKey : Event → Option (TId × Site)
  | .addLockAndWait t s => some (t, s)
  | _ => none

/-- The child trace-id of a pair record, if the event is one. -/
def Event.pairChild : Event → Option TId
  | .addPair _ c _ => some c
  | _ => none

/-- How a process run ends. -/
inductive Outcome
  | ret
  | blocked (tid : TId) (site : Site)
  | exited (code : Nat)
  | assertFailed (m : String)
  | raised (e : String)
  | dispatched (c : Cmd) (tid : TId) (site : Site) (tp : TracePoutine)
deriving DecidableEq

/-- A (possibly forked-off) process: its events and terminal outcome. -/
structure Proc where
  events : List Event
  outcome : Outcome
deriving DecidableEq

/-- The result of executing a command in one process: the calling process's
events and outcome, plus the processes it spawned by forking. -/
structure Run where
  events : List Event
  outcome : Outcome
  spawned : List Proc
deriving DecidableEq

/-- External behaviour of one `add_lock_and_wait` call on a key. -/
inductive WaitResult
  | parked
  | delivered (p : Payload)
  | connFailed (e : String)
deriving DecidableEq

/-- `get_uuid`: draw a fresh token from the supply. -/
def get_uuid (ctr : Nat) : TId × Nat := (ctr, ctr + 1)

/-- `RTraces.get_trace_key`: the composite (trace-id, site) key. -/
def RTraces.get_trace_key (tid : TId) (site : Site) : TId × Site := (tid, site)

/-- `RPairs.get_pair_name`: the pair key derived from (parent, child, site). -/
def RPairs.get_pair_name (parent : TId) (child : TId) (site : Site) :
    TId × TId × Site := (parent, child, site)

/-- Message string of the `assert issubclass(type(wake_command), ControlCommand)`
contract check. -/
def lockAssertMsg : String := "Lock must be behavior for lock release"

/-- Message string of the `assert msg.type == sample` contract check. -/
def resampleAssertMsg : String := "Cannot execute a resample at a non-sample node"

/-- `ControlCommand.wait_on_lock`: open an `RLock` connection, block on
`add_lock_and_wait(get_trace_key(trace_uuid, site_name))`; on normal return
call `kill_connection` and hand the wake payload back; if `add_lock_and_wait`
fails, the exception propagates (no `kill_connection` runs); while parked no
further event happens. -/
def ControlCommand.wait_on_lock (tid : TId) (site : Site) (res : WaitResult) :
    List Event × WaitResult :=
  match res with
  | .parked => ([.openConn, .addLockAndWait tid site], .parked)
  | .delivered p => ([.openConn, .addLockAndWait tid site, .killConn], .delivered p)
  | .connFailed e => ([.openConn, .addLockAndWait tid site], .connFailed e)

/-- `ForkContinueCommand.child_fct`: wait on the lock at (trace_uuid, site);
once woken, assert the payload is a Control Command, then tail-dispatch to its
`execute_control_site` with the original trace-id, site and poutine. -/
def ForkContinueCommand.child_fct (tid : TId) (site : Site) (tp : TracePoutine)
    (res : WaitResult) : List Event × Outcome :=
  let w := ControlCommand.wait_on_lock tid site res
  match w.2 with
  | .parked => (w.1, .blocked tid site)
  | .connFailed e => (w.1, .raised e)
  | .delivered (.cmd c) => (w.1, .dispatched c tid site tp)
  | .delivered (.notCmd _) => (w.1, .assertFailed lockAssertMsg)

/-- `ForkContinueCommand.parent_fct`: the parent simply continues
(returns `None`). -/
def ForkContinueCommand.parent_fct : Outcome := .ret

/-- `ForkContinueCommand.serialize_trace`: pickle the trace dict and store it
under (trace_uuid, site), then kill that store connection. -/
def ForkContinueCommand.serialize_trace (tid : TId) (site : Site)
    (td : TraceDict) : List Event :=
  [.openConn, .setTrace tid site td, .killConn]

/-- `ForkContinueCommand.execute_control_site`: persist the trace, fork; the
parent returns immediately, the forked child runs `child_fct`. -/
def ForkContinueCommand.execute_control_site (tid : TId) (site : Site)
    (tp : TracePoutine) (res : WaitResult) : Run :=
  let pre := ForkContinueCommand.serialize_trace tid site tp.trace
  let child := ForkContinueCommand.child_fct tid site tp res
  { events := pre, outcome := ForkContinueCommand.parent_fct,
    spawned := [⟨child.1, child.2⟩] }

/-- `CloneCommand.serialize_trace` is overridden to do nothing. -/
def CloneCommand.serialize_trace : List Event := []

/-- The clone loop of `CloneCommand.parent_fct`: `clone_count` times, draw a
fresh child trace-id, fork; each forked child adopts the new id on its
poutine, inserts the pair record `get_pair_name(trace_uuid, child, site)`,
and runs `child_fct` keyed by its new id.  Each child's eventual wake payload
comes from the environment `wr`, keyed by its lock id. -/
def CloneCommand.clone_loop (tid : TId) (site : Site) (tp : TracePoutine)
    (wr : TId → WaitResult) : Nat → Nat → List Proc × Nat
  | 0, ctr => ([], ctr)
  | n + 1, ctr =>
      let u := get_uuid ctr
      let child_trace_uuid := u.1
      let tp' := { tp with trace_uuid := child_trace_uuid }
      let c := ForkContinueCommand.child_fct child_trace_uuid site tp'
        (wr child_trace_uuid)
      let childProc : Proc :=
        ⟨[.openConn, .addPair tid child_trace_uuid site, .killConn] ++ c.1, c.2⟩
      let rest := CloneCommand.clone_loop tid site tp wr n u.2
      (childProc :: rest.1, rest.2)

/-- `CloneCommand.parent_fct`: run the clone loop, then `_exit(0)`
unconditionally. -/
def CloneCommand.parent_fct (clone_count : Nat) (tid : TId) (site : Site)
    (tp : TracePoutine) (wr : TId → WaitResult) (ctr : Nat) : Run × Nat :=
  let l := CloneCommand.clone_loop tid site tp wr clone_count ctr
  ({ events := [], outcome := .exited 0, spawned := l.1 }, l.2)

/-- `CloneCommand`'s inherited `execute_control_site`: serialize is a no-op,
fork once; the first child parks at the original (trace-id, site); the parent
runs the clone loop and exits. -/
def CloneCommand.execute_control_site (clone_count : Nat) (tid : TId)
    (site : Site) (tp : TracePoutine) (wr : TId → WaitResult) (ctr : Nat) :
    Run × Nat :=
  let firstChild := ForkContinueCommand.child_fct tid site tp (wr tid)
  let p := CloneCommand.parent_fct clone_count tid site tp wr ctr
  ({ events := CloneCommand.serialize_trace ++ p.1.events,
     outcome := p.1.outcome,
     spawned := ⟨firstChild.1, firstChild.2⟩ :: p.1.spawned }, p.2)

/-- `numpy.random.seed(sd)`: a concrete seed sets the global numpy state
deterministically; `seed(None)` seeds from OS entropy. -/
def np_seed (sd : Option Nat) (entropy : Nat) : Nat :=
  match sd with
  | some k => k
  | none => entropy

/-- The argument passed to `torch.manual_seed`: the explicit seed when given,
else `numpy.random.randint(0, 10000000)` drawn from the freshly seeded numpy
state (also returns the numpy state after the draw). -/
def manual_seed_arg (npRandint : Nat → Nat × Nat) (sd : Option Nat)
    (np0 : Nat) : Nat × Nat :=
  match sd with
  | some k => (k, np0)
  | none => npRandint np0

/-- Global RNG state and the uuid supply threaded through an execution. -/
structure Ctx where
  np : Nat
  torch : Nat
  ctr : Nat
deriving DecidableEq

/-- `ResampleForkContinueCommand.execute_control_site`: reseed numpy and
torch, assert the message is "sample"-typed, resample the site via
`_pyro_sample` (drawing from the torch RNG), optionally mint a new trace-id
and record the pair, then delegate to `ForkContinueCommand`'s execute with
the (possibly substituted) trace-id.  Returns the run, the final RNG/uuid
state, and the final poutine. -/
def ResampleForkContinueCommand.execute_control_site
    (npRandint : Nat → Nat × Nat) (torchDraw : Nat → Msg → Int × Nat)
    (sd : Option Nat) (uuid_on_sample : Bool) (tid : TId) (site : Site)
    (tp : TracePoutine) (msg : Msg) (entropy : Nat) (c : Ctx)
    (res : WaitResult) : Run × Ctx × TracePoutine :=
  let np0 := np_seed sd entropy
  let ms := manual_seed_arg npRandint sd np0
  let c1 : Ctx := { c with np := ms.2, torch := ms.1 }
  let evs0 : List Event := [.npSeed sd, .torchManualSeed ms.1]
  if msg.type_ = "sample" then
    let d := torchDraw c1.torch msg
    let tp1 : TracePoutine := { tp with trace := tp.trace.setSite msg.name d.1 }
    let c2 : Ctx := { c1 with torch := d.2 }
    let evs1 := evs0 ++ [.pyroSample msg.name d.1]
    if uuid_on_sample then
      let u := get_uuid c2.ctr
      let child_trace_uuid := u.1
      let tp2 : TracePoutine := { tp1 with trace_uuid := child_trace_uuid }
      let evs2 := evs1 ++ [.openConn, .addPair tid child_trace_uuid site, .killConn]
      let r := ForkContinueCommand.execute_control_site child_trace_uuid site tp2 res
      ({ r with events := evs2 ++ r.events }, { c2 with ctr := u.2 }, tp2)
    else
      let r := ForkContinueCommand.execute_control_site tid site tp1 res
      ({ r with events := evs1 ++ r.events }, c2, tp1)
  else
    ({ events := evs0, outcome := .assertFailed resampleAssertMsg, spawned := [] },
     c1, tp)

/-- `ResampleCloneContinueCommand.child_fct`: instead of parking, immediately
and synchronously run a `ResampleForkContinueCommand(seed, uuid_on_sample=False)`
against the same arguments. -/
def ResampleCloneContinueCommand.child_fct
    (npRandint : Nat → Nat × Nat) (torchDraw : Nat → Msg → Int × Nat)
    (sd : Option Nat) (tid : TId) (site : Site) (tp : TracePoutine) (msg : Msg)
    (entropy : Nat) (c : Ctx) (res : WaitResult) : Run × Ctx × TracePoutine :=
  ResampleForkContinueCommand.execute_control_site npRandint torchDraw sd false
    tid site tp msg entropy c res

/-- `LogPdfCommand.execute_control_site`: compute the trace's batch
log-density, publish it into the message slot keyed by
`get_trace_key(trace_uuid, site)`, kill that connection, then park exactly
like a Continue child and dispatch what it is woken with. -/
def LogPdfCommand.execute_control_site (batch_log_pdf : TraceDict → Int)
    (tid : TId) (site : Site) (tp : TracePoutine) (res : WaitResult) :
    List Event × Outcome :=
  let trace_pdf := batch_log_pdf tp.trace
  let evs0 : List Event := [.openConn, .setMsg tid site trace_pdf, .killConn]
  let w := ControlCommand.wait_on_lock tid site res
  match w.2 with
  | .parked => (evs0 ++ w.1, .blocked tid site)
  | .connFailed e => (evs0 ++ w.1, .raised e)
  | .delivered (.cmd c) => (evs0 ++ w.1, .dispatched c tid site tp)
  | .delivered (.notCmd _) => (evs0 ++ w.1, .assertFailed lockAssertMsg)

/-- `KillCommand.execute_control_site`: `_exit(0)`, nothing else. -/
def KillCommand.execute_control_site : Run :=
  { events := [], outcome := .exited 0, spawned := [] }

/-- The pair-record events of one process. -/
def Proc.pairEvents (p : Proc) : List Event := p.events.filter Event.isAddPair

/-- All pair-record events across a list of spawned processes, in order. -/
def spawnedPairs (ps : List Proc) : List Event := (ps.map Proc.pairEvents).flatten

/-- The child trace-ids registered in pair records across spawned processes. -/
def spawnedPairChildIds (ps : List Proc) : List TId :=
  (spawnedPairs ps).filterMap Event.pairChild

/-! ## General lemmas -/

/-- A Continue child's own events never contain a pair-record insertion. -/
lemma childFct_no_pair (tid : TId) (site : Site) (tp : TracePoutine)
    (res : WaitResult) :
    (ForkContinueCommand.child_fct tid site tp res).1.filter Event.isAddPair = [] := by
  cases res with
  | parked => rfl
  | connFailed e => rfl
  | delivered p => cases p <;> rfl

/-- `spawnedPairs` distributes over cons. -/
lemma spawnedPairs_cons (p : Proc) (ps : List Proc) :
    spawnedPairs (p :: ps) = p.pairEvents ++ spawnedPairs ps := rfl

/-! ## C2 -/

/-- C2 counterexample: a concrete `wait_on_lock` call in which
`add_lock_and_wait` fails: a connection is opened for waiting, yet
`kill_connection` is never called on it — the claim that the connection is
released on every exit path is false. -/
theorem C2_counterexample :
    (ControlCommand.wait_on_lock 0 "s" (.connFailed "err")).1
      = [Event.openConn, Event.addLockAndWait 0 "s"]
    ∧ Event.killConn ∉ (ControlCommand.wait_on_lock 0 "s" (.connFailed "err")).1 :=
  ⟨rfl, by decide⟩

/-- C2 (amended): `wait_on_lock` releases the coordination connection
(`kill_connection` runs) exactly when `add_lock_and_wait` returns normally;
when `add_lock_and_wait` fails, the failure propagates and `kill_connection`
is not called on the handle. -/
theorem C2_wait_on_lock_release (tid : TId) (site : Site) :
    (∀ p, (ControlCommand.wait_on_lock tid site (.delivered p)).1
        = [Event.openConn, Event.addLockAndWait tid site, Event.killConn])
    ∧ (∀ e, Event.killConn ∉ (ControlCommand.wait_on_lock tid site (.connFailed e)).1) := by
  refine ⟨fun p => rfl, fun e h => ?_⟩
  rcases h with _ | ⟨_, h⟩
  rcases h with _ | ⟨_, h⟩
  exact (List.not_mem_nil _ h).elim

/-! ## C4 -/

/-- C4: the Continue child path issues exactly one `wait_on_lock` call, keyed
by the original (trace-id, site), before doing anything else (its events are
exactly the wait call's events), and once woken with a Control Command it
dispatches that command's execute with the original trace-id and site. -/
theorem C4_continue_child (tid : TId) (site : Site) (tp : TracePoutine) :
    (∀ res, (ForkContinueCommand.child_fct tid site tp res).1
        = (ControlCommand.wait_on_lock tid site res).1
      ∧ (ForkContinueCommand.child_fct tid site tp res).1.filter Event.isWait
        = [Event.addLockAndWait tid site])
    ∧ (∀ c, (ForkContinueCommand.child_fct tid site tp (.delivered (.cmd c))).2
        = .dispatched c tid site tp) := by
  refine ⟨fun res => ?_, fun c => rfl⟩
  cases res with
  | parked => exact ⟨rfl, rfl⟩
  | connFailed e => exact ⟨rfl, rfl⟩
  | delivered p => cases p <;> exact ⟨rfl, rfl⟩

/-! ## C5 -/

/-- C5: `LogPdfCommand.execute_control_site` publishes into the message slot
keyed by (trace-id, site) exactly the trace's own batch log-density, with no
transformation, then parks via `wait_on_lock` on the same key; once woken
with a Control Command it dispatches it with the same trace-id and site. -/
theorem C5_logpdf (batch_log_pdf : TraceDict → Int) (tid : TId) (site : Site)
    (tp : TracePoutine) :
    (∀ res, (LogPdfCommand.execute_control_site batch_log_pdf tid site tp res).1
        = [Event.openConn, Event.setMsg tid site (batch_log_pdf tp.trace),
            Event.killConn] ++ (ControlCommand.wait_on_lock tid site res).1)
    ∧ (∀ c, (LogPdfCommand.execute_control_site batch_log_pdf tid site tp
        (.delivered (.cmd c))).2 = .dispatched c tid site tp) := by
  refine ⟨fun res => ?_, fun c => rfl⟩
  cases res with
  | parked => rfl
  | connFailed e => rfl
  | delivered p => cases p <;> rfl

/-! ## C6 -/

/-- C6: a parked waiter (Continue child or LogPdf) that is woken with a value
that is not a Control Command terminates with the contract-violation
assertion failure — never a silent no-op. -/
theorem C6_contract_violation (batch_log_pdf : TraceDict → Int) (tid : TId)
    (site : Site) (tp : TracePoutine) (tag : String) :
    (ForkContinueCommand.child_fct tid site tp (.delivered (.notCmd tag))).2
      = .assertFailed lockAssertMsg
    ∧ (LogPdfCommand.execute_control_site batch_log_pdf tid site tp
        (.delivered (.notCmd tag))).2 = .assertFailed lockAssertMsg :=
  ⟨rfl, rfl⟩

/-! ## C1 -/

/-- The pair records registered by the clone loop: one per iteration, linking
the original trace-id to the freshly drawn child id at the site. -/
lemma cloneLoop_pairs (tid : TId) (site : Site) (tp : TracePoutine)
    (wr : TId → WaitResult) :
    ∀ (n ctr : Nat),
      spawnedPairs (CloneCommand.clone_loop tid site tp wr n ctr).1
        = (List.range n).map (fun i => Event.addPair tid (ctr + i) site) := by
  intro n
  induction n with
  | zero => intro ctr; rfl
  | succ n ih =>
      intro ctr
      have hstep :
          (CloneCommand.clone_loop tid site tp wr (n + 1) ctr).1
            = ⟨[.openConn, .addPair tid ctr site, .killConn]
                ++ (ForkContinueCommand.child_fct ctr site
                    { tp with trace_uuid := ctr } (wr ctr)).1,
               (ForkContinueCommand.child_fct ctr site
                    { tp with trace_uuid := ctr } (wr ctr)).2⟩
              :: (CloneCommand.clone_loop tid site tp wr n (ctr + 1)).1 := rfl
      rw [hstep, spawnedPairs_cons, ih (ctr + 1)]
      have hhead :
          Proc.pairEvents
            ⟨[.openConn, .addPair tid ctr site, .killConn]
              ++ (ForkContinueCommand.child_fct ctr site
                  { tp with trace_uuid := ctr } (wr ctr)).1,
             (ForkContinueCommand.child_fct ctr site
                  { tp with trace_uuid := ctr } (wr ctr)).2⟩
            = [Event.addPair tid ctr site] := by
        show ([Event.openConn, Event.addPair tid ctr site, Event.killConn]
              ++ (ForkContinueCommand.child_fct ctr site
                  { tp with trace_uuid := ctr } (wr ctr)).1).filter Event.isAddPair
            = [Event.addPair tid ctr site]
        rw [List.filter_append, childFct_no_pair]
        rfl
      rw [hhead]
      rw [List.range_succ_eq_map, List.map_cons, List.map_map]
      have : ((fun i => Event.addPair tid (ctr + i) site) ∘ Nat.succ)
          = fun i => Event.addPair tid (ctr + 1 + i) site := by
        funext i
        show Event.addPair tid (ctr + (i + 1)) site = Event.addPair tid (ctr + 1 + i) site
        rw [Nat.add_comm i 1, ← Nat.add_assoc]
      rw [this]
      rfl

/-- The child trace-ids paired by the clone loop are the `n` fresh tokens
drawn from the supply starting at `ctr`. -/
lemma cloneLoop_childIds (tid : TId) (site : Site) (tp : TracePoutine)
    (wr : TId → WaitResult) (n ctr : Nat) :
    spawnedPairChildIds (CloneCommand.clone_loop tid site tp wr n ctr).1
      = (List.range n).map (fun i => ctr + i) := by
  rw [spawnedPairChildIds, cloneLoop_pairs, List.filterMap_map]
  have : (Event.pairChild ∘ fun i => Event.addPair tid (ctr + i) site)
      = fun i => some (ctr + i) := rfl
  rw [this]
  exact List.filterMap_eq_map (fun i => ctr + i) ▸ rfl

/-- C1: executing `CloneCommand(clone_count=N)` at a (trace-id, site)
produces exactly N freshly generated child trace-ids, pairwise distinct; the
pair records across all spawned children are exactly one per child, each
linking the original trace-id to that child id at the site, with no
duplicates; and the parent terminates unconditionally via `_exit(0)`,
returning no value. -/
theorem C1_clone_spec (N : Nat) (hN : 1 ≤ N) (tid : TId) (site : Site)
    (tp : TracePoutine) (wr : TId → WaitResult) (ctr : Nat) :
    spawnedPairs (CloneCommand.execute_control_site N tid site tp wr ctr).1.spawned
      = (List.range N).map (fun i => Event.addPair tid (ctr + i) site)
    ∧ (spawnedPairChildIds
        (CloneCommand.execute_control_site N tid site tp wr ctr).1.spawned).length = N
    ∧ (spawnedPairChildIds
        (CloneCommand.execute_control_site N tid site tp wr ctr).1.spawned).Nodup
    ∧ (spawnedPairs
        (CloneCommand.execute_control_site N tid site tp wr ctr).1.spawned).Nodup
    ∧ (CloneCommand.execute_control_site N tid site tp wr ctr).1.outcome
        = Outcome.exited 0 := by
  have hspawn :
      (CloneCommand.execute_control_site N tid site tp wr ctr).1.spawned
        = ⟨(ForkContinueCommand.child_fct tid site tp (wr tid)).1,
           (ForkContinueCommand.child_fct tid site tp (wr tid)).2⟩
          :: (CloneCommand.clone_loop tid site tp wr N ctr).1 := rfl
  have hfirst :
      Proc.pairEvents
        ⟨(ForkContinueCommand.child_fct tid site tp (wr tid)).1,
         (ForkContinueCommand.child_fct tid site tp (wr tid)).2⟩ = [] :=
    childFct_no_pair tid site tp (wr tid)
  have hpairs :
      spawnedPairs (CloneCommand.execute_control_site N tid site tp wr ctr).1.spawned
        = (List.range N).map (fun i => Event.addPair tid (ctr + i) site) := by
    rw [hspawn, spawnedPairs_cons, hfirst, cloneLoop_pairs]
    rfl
  have hids :
      spawnedPairChildIds
        (CloneCommand.execute_control_site N tid site tp wr ctr).1.spawned
        = (List.range N).map (fun i => ctr + i) := by
    rw [spawnedPairChildIds, hpairs, List.filterMap_map]
    have : (Event.pairChild ∘ fun i => Event.addPair tid (ctr + i) site)
        = fun i => some (ctr + i) := rfl
    rw [this]
    exact List.filterMap_eq_map (fun i => ctr + i) ▸ rfl
  have hinj : Function.Injective (fun i => ctr + i) := fun a b h =>
    Nat.add_left_cancel h
  have hidnodup :
      (spawnedPairChildIds
        (CloneCommand.execute_control_site N tid site tp wr ctr).1.spawned).Nodup := by
    rw [hids]
    exact (List.nodup_range N).map hinj
  refine ⟨hpairs, ?_, hidnodup, ?_, rfl⟩
  · rw [hids, List.length_map, List.length_range]
  · rw [hpairs]
    refine (List.nodup_range N).map ?_
    intro a b h
    have h2 : ctr + a = ctr + b := by
      injection h with h1 h2 h3
    omega

/-! ## Helper lemmas for ResampleForkContinue -/

/-- On a "sample"-typed message the resample action's own outcome is the
Continue parent's: it returns normally. -/
lemma rfc_outcome_sample (npRandint : Nat → Nat × Nat)
    (torchDraw : Nat → Msg → Int × Nat) (sd : Option Nat) (u : Bool)
    (tid : TId) (site : Site) (tp : TracePoutine) (msg : Msg) (entropy : Nat)
    (c : Ctx) (res : WaitResult) (h : msg.type_ = "sample") :
    (ResampleForkContinueCommand.execute_control_site npRandint torchDraw sd u
        tid site tp msg entropy c res).1.outcome = Outcome.ret := by
  unfold ResampleForkContinueCommand.execute_control_site
  rw [if_pos h]
  cases u <;> rfl

/-- On a "sample"-typed message the resample action spawns exactly the one
Continue child (at some trace-id and poutine determined by `uuid_on_sample`). -/
lemma rfc_spawned_sample (npRandint : Nat → Nat × Nat)
    (torchDraw : Nat → Msg → Int × Nat) (sd : Option Nat) (u : Bool)
    (tid : TId) (site : Site) (tp : TracePoutine) (msg : Msg) (entropy : Nat)
    (c : Ctx) (res : WaitResult) (h : msg.type_ = "sample") :
    ∃ tid' tp',
      (ResampleForkContinueCommand.execute_control_site npRandint torchDraw sd u
          tid site tp msg entropy c res).1.spawned
        = [⟨(ForkContinueCommand.child_fct tid' site tp' res).1,
            (ForkContinueCommand.child_fct tid' site tp' res).2⟩] := by
  unfold ResampleForkContinueCommand.execute_control_site
  rw [if_pos h]
  cases u
  · exact ⟨tid, _, rfl⟩
  · exact ⟨_, _, rfl⟩

/-- A Continue child never dies on the resample assertion: its only assertion
is the wake-payload contract check, whose message differs. -/
lemma childFct_outcome_ne_resampleAssert (tid : TId) (site : Site)
    (tp : TracePoutine) (res : WaitResult) :
    (ForkContinueCommand.child_fct tid site tp res).2
      ≠ Outcome.assertFailed resampleAssertMsg := by
  cases res with
  | parked => intro hcon; exact Outcome.noConfusion hcon
  | connFailed e => intro hcon; exact Outcome.noConfusion hcon
  | delivered p =>
      cases p with
      | cmd c => intro hcon; exact Outcome.noConfusion hcon
      | notCmd t =>
          intro hcon
          injection hcon with hmsg
          exact absurd hmsg (by decide)

/-! ## C3 -/

/-- C3: with a fixed (non-None) seed, two independent executions of
`ResampleForkContinueCommand.execute_control_site` on identical inputs —
whatever OS entropy and whatever numpy backend each run sees — perform
identical events, end with identical poutines, resample the site to the
identical value (a function of the seed and message alone), and hence give
identical batch log-densities to a downstream LogPdf. -/
theorem C3_seed_determinism (npR1 npR2 : Nat → Nat × Nat)
    (torchDraw : Nat → Msg → Int × Nat) (batch_log_pdf : TraceDict → Int)
    (k : Nat) (u : Bool) (tid : TId) (site : Site) (tp : TracePoutine)
    (msg : Msg) (h : msg.type_ = "sample") (e1 e2 : Nat) (c : Ctx)
    (res1 res2 : WaitResult) :
    (ResampleForkContinueCommand.execute_control_site npR1 torchDraw (some k) u
        tid site tp msg e1 c res1).1.events
      = (ResampleForkContinueCommand.execute_control_site npR2 torchDraw (some k) u
        tid site tp msg e2 c res2).1.events
    ∧ (ResampleForkContinueCommand.execute_control_site npR1 torchDraw (some k) u
        tid site tp msg e1 c res1).2.2
      = (ResampleForkContinueCommand.execute_control_site npR2 torchDraw (some k) u
        tid site tp msg e2 c res2).2.2
    ∧ (ResampleForkContinueCommand.execute_control_site npR1 torchDraw (some k) u
        tid site tp msg e1 c res1).2.2.trace
      = tp.trace.setSite msg.name (torchDraw k msg).1
    ∧ batch_log_pdf (ResampleForkContinueCommand.execute_control_site npR1
        torchDraw (some k) u tid site tp msg e1 c res1).2.2.trace
      = batch_log_pdf (ResampleForkContinueCommand.execute_control_site npR2
        torchDraw (some k) u tid site tp msg e2 c res2).2.2.trace := by
  unfold ResampleForkContinueCommand.execute_control_site
  simp only [if_pos h]
  cases u <;> exact ⟨rfl, rfl, rfl, rfl⟩

/-! ## C7 -/

/-- C7: `ResampleForkContinueCommand.execute_control_site` fails fatally on
the resample assertion whenever the message's type tag is not "sample"
(resampling nothing and forking nothing), and that failure never occurs —
in the main process or in any spawned child — when the tag is "sample". -/
theorem C7_sample_guard (npRandint : Nat → Nat × Nat)
    (torchDraw : Nat → Msg → Int × Nat) (sd : Option Nat) (u : Bool)
    (tid : TId) (site : Site) (tp : TracePoutine) (msg : Msg) (entropy : Nat)
    (c : Ctx) (res : WaitResult) :
    (msg.type_ ≠ "sample" →
      (ResampleForkContinueCommand.execute_control_site npRandint torchDraw sd u
          tid site tp msg entropy c res).1.outcome
        = Outcome.assertFailed resampleAssertMsg
      ∧ (ResampleForkContinueCommand.execute_control_site npRandint torchDraw sd u
          tid site tp msg entropy c res).1.events.filter Event.isSample = []
      ∧ (ResampleForkContinueCommand.execute_control_site npRandint torchDraw sd u
          tid site tp msg entropy c res).1.spawned = [])
    ∧ (msg.type_ = "sample" →
      (ResampleForkContinueCommand.execute_control_site npRandint torchDraw sd u
          tid site tp msg entropy c res).1.outcome
        ≠ Outcome.assertFailed resampleAssertMsg
      ∧ ∀ p ∈ (ResampleForkContinueCommand.execute_control_site npRandint torchDraw
          sd u tid site tp msg entropy c res).1.spawned,
        p.outcome ≠ Outcome.assertFailed resampleAssertMsg) := by
  constructor
  · intro h
    unfold ResampleForkContinueCommand.execute_control_site
    rw [if_neg h]
    exact ⟨rfl, rfl, rfl⟩
  · intro h
    constructor
    · rw [rfc_outcome_sample npRandint torchDraw sd u tid site tp msg entropy c res h]
      intro hcon
      exact Outcome.noConfusion hcon
    · intro p hp
      obtain ⟨tid', tp', hs⟩ :=
        rfc_spawned_sample npRandint torchDraw sd u tid site tp msg entropy c res h
      rw [hs, List.mem_singleton] at hp
      subst hp
      exact childFct_outcome_ne_resampleAssert tid' site tp' res

/-! ## C8 -/

/-- C8: on a "sample"-typed message, `ResampleForkContinueCommand` with
`uuid_on_sample=true` mints one fresh child trace-id from the supply, records
exactly one pair record (old trace-id, new trace-id, site), and performs the
Continue-style persist-and-fork keyed by the new trace-id (the trace persist
and the spawned child's lock wait both use the new id); with
`uuid_on_sample=false` no fresh trace-id is drawn, no pair record is written,
and the persist-and-fork stays keyed by the old trace-id. -/
theorem C8_uuid_on_sample (npRandint : Nat → Nat × Nat)
    (torchDraw : Nat → Msg → Int × Nat) (sd : Option Nat) (tid : TId)
    (site : Site) (tp : TracePoutine) (msg : Msg) (entropy : Nat) (c : Ctx)
    (res : WaitResult) (h : msg.type_ = "sample") :
    (ResampleForkContinueCommand.execute_control_site npRandint torchDraw sd true
        tid site tp msg entropy c res).1.events.filter Event.isAddPair
      = [Event.addPair tid (get_uuid c.ctr).1 site]
    ∧ spawnedPairs (ResampleForkContinueCommand.execute_control_site npRandint
        torchDraw sd true tid site tp msg entropy c res).1.spawned = []
    ∧ (ResampleForkContinueCommand.execute_control_site npRandint torchDraw sd true
        tid site tp msg entropy c res).1.events.filterMap Event.setTraceKey
      = [((get_uuid c.ctr).1, site)]
    ∧ (((ResampleForkContinueCommand.execute_control_site npRandint torchDraw sd true
        tid site tp msg entropy c res).1.spawned.map Proc.events).flatten.filterMap
          Event.waitKey)
      = [((get_uuid c.ctr).1, site)]
    ∧ (ResampleForkContinueCommand.execute_control_site npRandint torchDraw sd true
        tid site tp msg entropy c res).2.1.ctr = c.ctr + 1
    ∧ (ResampleForkContinueCommand.execute_control_site npRandint torchDraw sd false
        tid site tp msg entropy c res).1.events.filter Event.isAddPair = []
    ∧ spawnedPairs (ResampleForkContinueCommand.execute_control_site npRandint
        torchDraw sd false tid site tp msg entropy c res).1.spawned = []
    ∧ (ResampleForkContinueCommand.execute_control_site npRandint torchDraw sd false
        tid site tp msg entropy c res).1.events.filterMap Event.setTraceKey
      = [(tid, site)]
    ∧ (((ResampleForkContinueCommand.execute_control_site npRandint torchDraw sd false
        tid site tp msg entropy c res).1.spawned.map Proc.events).flatten.filterMap
          Event.waitKey)
      = [(tid, site)]
    ∧ (ResampleForkContinueCommand.execute_control_site npRandint torchDraw sd false
        tid site tp msg entropy c res).2.1.ctr = c.ctr := by
  unfold ResampleForkContinueCommand.execute_control_site
  simp only [if_pos h]
  cases res with
  | parked => exact ⟨rfl, rfl, rfl, rfl, rfl, rfl, rfl, rfl, rfl, rfl⟩
  | connFailed e => exact ⟨rfl, rfl, rfl, rfl, rfl, rfl, rfl, rfl, rfl, rfl⟩
  | delivered p => cases p <;> exact ⟨rfl, rfl, rfl, rfl, rfl, rfl, rfl, rfl, rfl, rfl⟩

/-! ## C9 -/

/-- C9: a `ResampleCloneContinueCommand` child behaves exactly as an
immediate, synchronous
`ResampleForkContinueCommand(seed, uuid_on_sample=false).execute_control_site`
on the same trace-id, site, poutine and message, and the child process itself
never parks or blocks on a lock: its own events contain no lock wait, and its
outcome is a normal return (or the resample assertion failure), never
`blocked`. -/
theorem C9_rcc_child (npRandint : Nat → Nat × Nat)
    (torchDraw : Nat → Msg → Int × Nat) (sd : Option Nat) (tid : TId)
    (site : Site) (tp : TracePoutine) (msg : Msg) (entropy : Nat) (c : Ctx)
    (res : WaitResult) :
    ResampleCloneContinueCommand.child_fct npRandint torchDraw sd tid site tp
        msg entropy c res
      = ResampleForkContinueCommand.execute_control_site npRandint torchDraw sd
          false tid site tp msg entropy c res
    ∧ (ResampleCloneContinueCommand.child_fct npRandint torchDraw sd tid site tp
        msg entropy c res).1.events.filterMap Event.waitKey = []
    ∧ ((ResampleCloneContinueCommand.child_fct npRandint torchDraw sd tid site tp
          msg entropy c res).1.outcome = Outcome.ret
      ∨ (ResampleCloneContinueCommand.child_fct npRandint torchDraw sd tid site tp
          msg entropy c res).1.outcome = Outcome.assertFailed resampleAssertMsg) := by
  refine ⟨rfl, ?_, ?_⟩
  · by_cases h : msg.type_ = "sample"
    · unfold ResampleCloneContinueCommand.child_fct
        ResampleForkContinueCommand.execute_control_site
      simp only [if_pos h]
      rfl
    · unfold ResampleCloneContinueCommand.child_fct
        ResampleForkContinueCommand.execute_control_site
      simp only [if_neg h]
      rfl
  · by_cases h : msg.type_ = "sample"
    · exact Or.inl (rfc_outcome_sample npRandint torchDraw sd false tid site tp
        msg entropy c res h)
    · refine Or.inr ?_
      unfold ResampleCloneContinueCommand.child_fct
        ResampleForkContinueCommand.execute_control_site
      simp only [if_neg h]

/-! ## C10 -/

/-- C10: on a message whose type tag is not "sample", the resample action's
fatal abort happens before any trace mutation and before any Coordination
Store write — the poutine comes back unchanged, no store-write event occurs,
nothing is forked — but after both global RNGs have been reseeded: the final
context carries the freshly seeded numpy and torch states (uuid supply
untouched). -/
theorem C10_abort_order (npRandint : Nat → Nat × Nat)
    (torchDraw : Nat → Msg → Int × Nat) (sd : Option Nat) (u : Bool)
    (tid : TId) (site : Site) (tp : TracePoutine) (msg : Msg) (entropy : Nat)
    (c : Ctx) (res : WaitResult) (h : msg.type_ ≠ "sample") :
    (ResampleForkContinueCommand.execute_control_site npRandint torchDraw sd u
        tid site tp msg entropy c res).2.2 = tp
    ∧ (ResampleForkContinueCommand.execute_control_site npRandint torchDraw sd u
        tid site tp msg entropy c res).1.events.filter Event.isStoreWrite = []
    ∧ (ResampleForkContinueCommand.execute_control_site npRandint torchDraw sd u
        tid site tp msg entropy c res).1.spawned = []
    ∧ (ResampleForkContinueCommand.execute_control_site npRandint torchDraw sd u
        tid site tp msg entropy c res).1.outcome
      = Outcome.assertFailed resampleAssertMsg
    ∧ (ResampleForkContinueCommand.execute_control_site npRandint torchDraw sd u
        tid site tp msg entropy c res).2.1
      = { np := (manual_seed_arg npRandint sd (np_seed sd entropy)).2,
          torch := (manual_seed_arg npRandint sd (np_seed sd entropy)).1,
          ctr := c.ctr } := by
  unfold ResampleForkContinueCommand.execute_control_site
  rw [if_neg h]
  exact ⟨rfl, rfl, rfl, rfl, rfl⟩

/-! ## Witnesses -/

/-- Witness for C1 at clone_count 2: two pair records with the fresh ids 5
and 6, and the parent exits. -/
theorem C1_clone_spec_witness :
    1 ≤ 2
    ∧ (spawnedPairs (CloneCommand.execute_control_site 2 9 "s" ⟨9, []⟩
          (fun _ => WaitResult.parked) 5).1.spawned
        = [Event.addPair 9 5 "s", Event.addPair 9 6 "s"]
      ∧ (spawnedPairChildIds (CloneCommand.execute_control_site 2 9 "s" ⟨9, []⟩
          (fun _ => WaitResult.parked) 5).1.spawned).length = 2
      ∧ (spawnedPairChildIds (CloneCommand.execute_control_site 2 9 "s" ⟨9, []⟩
          (fun _ => WaitResult.parked) 5).1.spawned).Nodup
      ∧ (spawnedPairs (CloneCommand.execute_control_site 2 9 "s" ⟨9, []⟩
          (fun _ => WaitResult.parked) 5).1.spawned).Nodup
      ∧ (CloneCommand.execute_control_site 2 9 "s" ⟨9, []⟩
          (fun _ => WaitResult.parked) 5).1.outcome = Outcome.exited 0) :=
  ⟨by decide,
   C1_clone_spec 2 (by decide) 9 "s" ⟨9, []⟩ (fun _ => WaitResult.parked) 5⟩

/-- Witness for C3 at seed 2 with differing entropy, numpy backends and wake
results between the two runs: same events, same poutine, site resampled to 2. -/
theorem C3_seed_determinism_witness :
    (Msg.mk "sample" "x" 0).type_ = "sample"
    ∧ ((ResampleForkContinueCommand.execute_control_site (fun n => (n, n))
          (fun st _ => (Int.ofNat st, st + 1)) (some 2) true 0 "s" ⟨0, []⟩
          ⟨"sample", "x", 0⟩ 11 ⟨0, 0, 0⟩ WaitResult.parked).1.events
        = (ResampleForkContinueCommand.execute_control_site (fun n => (n + 5, n))
          (fun st _ => (Int.ofNat st, st + 1)) (some 2) true 0 "s" ⟨0, []⟩
          ⟨"sample", "x", 0⟩ 22 ⟨0, 0, 0⟩
          (WaitResult.delivered (Payload.cmd Cmd.kill))).1.events
      ∧ (ResampleForkContinueCommand.execute_control_site (fun n => (n, n))
          (fun st _ => (Int.ofNat st, st + 1)) (some 2) true 0 "s" ⟨0, []⟩
          ⟨"sample", "x", 0⟩ 11 ⟨0, 0, 0⟩ WaitResult.parked).2.2
        = (ResampleForkContinueCommand.execute_control_site (fun n => (n + 5, n))
          (fun st _ => (Int.ofNat st, st + 1)) (some 2) true 0 "s" ⟨0, []⟩
          ⟨"sample", "x", 0⟩ 22 ⟨0, 0, 0⟩
          (WaitResult.delivered (Payload.cmd Cmd.kill))).2.2
      ∧ (ResampleForkContinueCommand.execute_control_site (fun n => (n, n))
          (fun st _ => (Int.ofNat st, st + 1)) (some 2) true 0 "s" ⟨0, []⟩
          ⟨"sample", "x", 0⟩ 11 ⟨0, 0, 0⟩ WaitResult.parked).2.2.trace
        = [("x", (2 : Int))]
      ∧ (fun td => Int.ofNat td.length)
          (ResampleForkContinueCommand.execute_control_site (fun n => (n, n))
          (fun st _ => (Int.ofNat st, st + 1)) (some 2) true 0 "s" ⟨0, []⟩
          ⟨"sample", "x", 0⟩ 11 ⟨0, 0, 0⟩ WaitResult.parked).2.2.trace
        = (fun td => Int.ofNat td.length)
          (ResampleForkContinueCommand.execute_control_site (fun n => (n + 5, n))
          (fun st _ => (Int.ofNat st, st + 1)) (some 2) true 0 "s" ⟨0, []⟩
          ⟨"sample", "x", 0⟩ 22 ⟨0, 0, 0⟩
          (WaitResult.delivered (Payload.cmd Cmd.kill))).2.2.trace) :=
  ⟨rfl,
   C3_seed_determinism (fun n => (n, n)) (fun n => (n + 5, n))
     (fun st _ => (Int.ofNat st, st + 1)) (fun td => Int.ofNat td.length)
     2 true 0 "s" ⟨0, []⟩ ⟨"sample", "x", 0⟩ rfl 11 22 ⟨0, 0, 0⟩
     WaitResult.parked (WaitResult.delivered (Payload.cmd Cmd.kill))⟩

/-- Witness for C7: a non-"sample" message makes the resample action fail on
the resample assertion; a "sample" message does not. -/
theorem C7_sample_guard_witness :
    (ResampleForkContinueCommand.execute_control_site (fun n => (n, n))
        (fun st _ => (Int.ofNat st, st + 1)) (some 3) true 0 "s" ⟨0, []⟩
        ⟨"observe", "x", 0⟩ 0 ⟨0, 0, 0⟩ WaitResult.parked).1.outcome
      = Outcome.assertFailed resampleAssertMsg
    ∧ (ResampleForkContinueCommand.execute_control_site (fun n => (n, n))
        (fun st _ => (Int.ofNat st, st + 1)) (some 3) true 0 "s" ⟨0, []⟩
        ⟨"sample", "x", 0⟩ 0 ⟨0, 0, 0⟩ WaitResult.parked).1.outcome
      ≠ Outcome.assertFailed resampleAssertMsg :=
  ⟨((C7_sample_guard (fun n => (n, n)) (fun st _ => (Int.ofNat st, st + 1))
      (some 3) true 0 "s" ⟨0, []⟩ ⟨"observe", "x", 0⟩ 0 ⟨0, 0, 0⟩
      WaitResult.parked).1 (by decide)).1,
   ((C7_sample_guard (fun n => (n, n)) (fun st _ => (Int.ofNat st, st + 1))
      (some 3) true 0 "s" ⟨0, []⟩ ⟨"sample", "x", 0⟩ 0 ⟨0, 0, 0⟩
      WaitResult.parked).2 rfl).1⟩

/-- Witness for C8 at uuid supply 4: with uuid_on_sample the single pair
record is (0, 4, "s"), persist and wait are keyed by 4, the supply advances
to 5; without it, no pair record, keys stay 0, the supply stays 4. -/
theorem C8_uuid_on_sample_witness :
    (Msg.mk "sample" "x" 0).type_ = "sample"
    ∧ ((ResampleForkContinueCommand.execute_control_site (fun n => (n, n))
          (fun st _ => (5, st)) (some 3) true 0 "s" ⟨0, []⟩ ⟨"sample", "x", 0⟩
          0 ⟨0, 0, 4⟩ WaitResult.parked).1.events.filter Event.isAddPair
        = [Event.addPair 0 4 "s"]
      ∧ spawnedPairs (ResampleForkContinueCommand.execute_control_site
          (fun n => (n, n)) (fun st _ => (5, st)) (some 3) true 0 "s" ⟨0, []⟩
          ⟨"sample", "x", 0⟩ 0 ⟨0, 0, 4⟩ WaitResult.parked).1.spawned = []
      ∧ (ResampleForkContinueCommand.execute_control_site (fun n => (n, n))
          (fun st _ => (5, st)) (some 3) true 0 "s" ⟨0, []⟩ ⟨"sample", "x", 0⟩
          0 ⟨0, 0, 4⟩ WaitResult.parked).1.events.filterMap Event.setTraceKey
        = [(4, "s")]
      ∧ (((ResampleForkContinueCommand.execute_control_site (fun n => (n, n))
          (fun st _ => (5, st)) (some 3) true 0 "s" ⟨0, []⟩ ⟨"sample", "x", 0⟩
          0 ⟨0, 0, 4⟩ WaitResult.parked).1.spawned.map Proc.events).flatten.filterMap
            Event.waitKey)
        = [(4, "s")]
      ∧ (ResampleForkContinueCommand.execute_control_site (fun n => (n, n))
          (fun st _ => (5, st)) (some 3) true 0 "s" ⟨0, []⟩ ⟨"sample", "x", 0⟩
          0 ⟨0, 0, 4⟩ WaitResult.parked).2.1.ctr = 5
      ∧ (ResampleForkContinueCommand.execute_control_site (fun n => (n, n))
          (fun st _ => (5, st)) (some 3) false 0 "s" ⟨0, []⟩ ⟨"sample", "x", 0⟩
          0 ⟨0, 0, 4⟩ WaitResult.parked).1.events.filter Event.isAddPair = []
      ∧ spawnedPairs (ResampleForkContinueCommand.execute_control_site
          (fun n => (n, n)) (fun st _ => (5, st)) (some 3) false 0 "s" ⟨0, []⟩
          ⟨"sample", "x", 0⟩ 0 ⟨0, 0, 4⟩ WaitResult.parked).1.spawned = []
      ∧ (ResampleForkContinueCommand.execute_control_site (fun n => (n, n))
          (fun st _ => (5, st)) (some 3) false 0 "s" ⟨0, []⟩ ⟨"sample", "x", 0⟩
          0 ⟨0, 0, 4⟩ WaitResult.parked).1.events.filterMap Event.setTraceKey
        = [(0, "s")]
      ∧ (((ResampleForkContinueCommand.execute_control_site (fun n => (n, n))
          (fun st _ => (5, st)) (some 3) false 0 "s" ⟨0, []⟩ ⟨"sample", "x", 0⟩
          0 ⟨0, 0, 4⟩ WaitResult.parked).1.spawned.map Proc.events).flatten.filterMap
            Event.waitKey)
        = [(0, "s")]
      ∧ (ResampleForkContinueCommand.execute_control_site (fun n => (n, n))
          (fun st _ => (5, st)) (some 3) false 0 "s" ⟨0, []⟩ ⟨"sample", "x", 0⟩
          0 ⟨0, 0, 4⟩ WaitResult.parked).2.1.ctr = 4) :=
  ⟨rfl,
   C8_uuid_on_sample (fun n => (n, n)) (fun st _ => (5, st)) (some 3) 0 "s"
     ⟨0, []⟩ ⟨"sample", "x", 0⟩ 0 ⟨0, 0, 4⟩ WaitResult.parked rfl⟩

/-- Witness for C10: on an "observe" message with seed 7 the abort leaves the
trace untouched and writes nothing, while the context shows numpy and torch
freshly reseeded to 7. -/
theorem C10_abort_order_witness :
    (Msg.mk "observe" "x" 0).type_ ≠ "sample"
    ∧ ((ResampleForkContinueCommand.execute_control_site (fun n => (n + 1, n + 2))
          (fun st _ => (0, st)) (some 7) true 0 "s" ⟨3, [("y", 1)]⟩
          ⟨"observe", "x", 0⟩ 5 ⟨1, 2, 3⟩ WaitResult.parked).2.2
        = ⟨3, [("y", 1)]⟩
      ∧ (ResampleForkContinueCommand.execute_control_site (fun n => (n + 1, n + 2))
          (fun st _ => (0, st)) (some 7) true 0 "s" ⟨3, [("y", 1)]⟩
          ⟨"observe", "x", 0⟩ 5 ⟨1, 2, 3⟩ WaitResult.parked).1.events.filter
            Event.isStoreWrite = []
      ∧ (ResampleForkContinueCommand.execute_control_site (fun n => (n + 1, n + 2))
          (fun st _ => (0, st)) (some 7) true 0 "s" ⟨3, [("y", 1)]⟩
          ⟨"observe", "x", 0⟩ 5 ⟨1, 2, 3⟩ WaitResult.parked).1.spawned = []
      ∧ (ResampleForkContinueCommand.execute_control_site (fun n => (n + 1, n + 2))
          (fun st _ => (0, st)) (some 7) true 0 "s" ⟨3, [("y", 1)]⟩
          ⟨"observe", "x", 0⟩ 5 ⟨1, 2, 3⟩ WaitResult.parked).1.outcome
        = Outcome.assertFailed resampleAssertMsg
      ∧ (ResampleForkContinueCommand.execute_control_site (fun n => (n + 1, n + 2))
          (fun st _ => (0, st)) (some 7) true 0 "s" ⟨3, [("y", 1)]⟩
          ⟨"observe", "x", 0⟩ 5 ⟨1, 2, 3⟩ WaitResult.parked).2.1
        = ⟨7, 7, 3⟩) :=
  ⟨by decide,
   C10_abort_order (fun n => (n + 1, n + 2)) (fun st _ => (0, st)) (some 7)
     true 0 "s" ⟨3, [("y", 1)]⟩ ⟨"observe", "x", 0⟩ 5 ⟨1, 2, 3⟩
     WaitResult.parked (by decide)⟩
